/-
  Verification of the 10k Perovskites dashboard (src/dashboard_app.py).

  Shallow embedding: the BigQuery warehouse tables are lists of rows, each
  SQL query of get_dashboard_data is a Lean function over that state, the
  Crucible client and HTTP layer are function parameters, and the Flask
  endpoints are pure functions from inputs to (status, body).

  SQL string semantics (LOWER, LIKE with percent wildcards, ends-with) are
  modelled over lists of characters.  PARSE_TIMESTAMP is modelled as a
  structural parser of the two format strings used by the code; timezone
  normalisation to UTC and real calendar arithmetic are abstracted: a DATE
  is the literal (year, month, day) component and timestamps compare by
  their literal field tuple.  This is the only abstraction; every filter,
  join, grouping, ordering, LIMIT and null-handling step follows the SQL
  text of the source.
-/
import Mathlib

namespace Dashboard

/-! ### Character and string helpers (SQL LOWER, LIKE, endswith) -/

/-- ASCII lower-casing of one character, as SQL LOWER acts on ASCII. -/
def lowerChar (c : Char) : Char :=
  if 'A' ≤ c ∧ c ≤ 'Z' then Char.ofNat (c.toNat + 32) else c

/-- Lower-case a string to its character list. -/
def lowerData (s : String) : List Char := s.data.map lowerChar

/-- Does the second list begin with the first? -/
def leadsWith : List Char → List Char → Bool
  | [], _ => true
  | _ :: _, [] => false
  | p :: ps, c :: cs => p == c && leadsWith ps cs

/-- Does `pat` occur as a contiguous block of the haystack?
    This is SQL `LIKE concat(percent, pat, percent)` for a literal `pat`. -/
def hasSub (pat : List Char) : List Char → Bool
  | [] => leadsWith pat []
  | c :: cs => leadsWith pat (c :: cs) || hasSub pat cs

/-- Does the list end with `suf`?  (Python str.endswith, case sensitive.) -/
def trailsWith (suf : List Char) (s : List Char) : Bool :=
  leadsWith suf.reverse s.reverse

/-- SQL `LOWER(col) LIKE pattern` on a nullable column: NULL compares false. -/
def lowerLike (col : Option String) (pat : String) : Bool :=
  match col with
  | none => false
  | some s => hasSub pat.data (lowerData s)

/-- SQL `LOWER(col) = lit` on a nullable column: NULL compares false. -/
def lowerEq (col : Option String) (lit : String) : Bool :=
  match col with
  | none => false
  | some s => lowerData s == lit.data

/-! ### Timestamp parsing

The code uses two BigQuery format strings:
  fmtTZ : the string used with percent-Y-m-d T H:M, fractional seconds and a
          numeric timezone (the first COALESCE branch, and the only format
          accepted by the thumbnail query);
  fmtPlain : the same date-time without fraction or timezone.
-/

structure Ts where
  y : Nat
  mo : Nat
  d : Nat
  h : Nat
  mi : Nat
  s : Nat
deriving DecidableEq, Repr

/-- DATE() of a timestamp, as a single comparable key of its literal
    (year, month, day) fields. -/
def Ts.dateKey (t : Ts) : Nat := (t.y * 13 + t.mo) * 32 + t.d

/-- Full timestamp as a single comparable key (lexicographic in fields). -/
def Ts.key (t : Ts) : Nat :=
  ((((t.y * 13 + t.mo) * 32 + t.d) * 24 + t.h) * 60 + t.mi) * 60 + t.s

def digitVal (c : Char) : Option Nat :=
  if '0' ≤ c ∧ c ≤ '9' then some (c.toNat - 48) else none

def read2 : List Char → Option (Nat × List Char)
  | a :: b :: rest =>
    match digitVal a, digitVal b with
    | some x, some y => some (10 * x + y, rest)
    | _, _ => none
  | _ => none

def read4 : List Char → Option (Nat × List Char)
  | a :: b :: c :: d :: rest =>
    match digitVal a, digitVal b, digitVal c, digitVal d with
    | some w, some x, some y, some z => some (((w * 10 + x) * 10 + y) * 10 + z, rest)
    | _, _, _, _ => none
  | _ => none

def expectCh (c : Char) : List Char → Option (List Char)
  | x :: rest => if x == c then some rest else none
  | [] => none

/-- Parse the shared `YYYY-MM-DDTHH:MM:SS` head of both formats, with the
    range validation PARSE_TIMESTAMP performs. -/
def parseCore (cs : List Char) : Option (Ts × List Char) :=
  match read4 cs with
  | none => none
  | some (y, r1) =>
    match expectCh '-' r1 with
    | none => none
    | some r2 =>
      match read2 r2 with
      | none => none
      | some (mo, r3) =>
        match expectCh '-' r3 with
        | none => none
        | some r4 =>
          match read2 r4 with
          | none => none
          | some (d, r5) =>
            match expectCh 'T' r5 with
            | none => none
            | some r6 =>
              match read2 r6 with
              | none => none
              | some (h, r7) =>
                match expectCh ':' r7 with
                | none => none
                | some r8 =>
                  match read2 r8 with
                  | none => none
                  | some (mi, r9) =>
                    match expectCh ':' r9 with
                    | none => none
                    | some r10 =>
                      match read2 r10 with
                      | none => none
                      | some (s, r11) =>
                        if 1 ≤ mo ∧ mo ≤ 12 ∧ 1 ≤ d ∧ d ≤ 31 ∧
                           h ≤ 23 ∧ mi ≤ 59 ∧ s ≤ 59 then
                          some (⟨y, mo, d, h, mi, s⟩, r11)
                        else none

/-- Consume an optional fractional-seconds part (a dot and one or more
    digits), the percent-E-star-S element of the timezone format. -/
def skipFraction : List Char → Option (List Char)
  | '.' :: rest =>
    let digits := rest.takeWhile (fun c => (digitVal c).isSome)
    if digits.isEmpty then none else some (rest.drop digits.length)
  | cs => some cs

/-- Consume a numeric timezone (sign HH:MM, or Z), the percent-Ez element. -/
def skipTz : List Char → Option (List Char)
  | 'Z' :: rest => some rest
  | c :: rest =>
    if c == '+' || c == '-' then
      match read2 rest with
      | none => none
      | some (th, r1) =>
        match expectCh ':' r1 with
        | none => none
        | some r2 =>
          match read2 r2 with
          | none => none
          | some (tm, r3) => if th ≤ 23 ∧ tm ≤ 59 then some r3 else none
    else none
  | [] => none

/-- PARSE_TIMESTAMP with the fractional-seconds-and-timezone format. -/
def parseTsTZ (s : String) : Option Ts :=
  match parseCore s.data with
  | none => none
  | some (t, rest) =>
    match skipFraction rest with
    | none => none
    | some r1 =>
      match skipTz r1 with
      | none => none
      | some r2 => if r2.isEmpty then some t else none

/-- PARSE_TIMESTAMP with the plain format (no fraction, no timezone). -/
def parseTsPlain (s : String) : Option Ts :=
  match parseCore s.data with
  | none => none
  | some (t, rest) => if rest.isEmpty then some t else none

/-- `COALESCE(SAFE.PARSE_TIMESTAMP(fmtTZ, x), SAFE.PARSE_TIMESTAMP(fmtPlain, x))`
    as used by the samples-over-time query. -/
def parseCreated (s : String) : Option Ts :=
  match parseTsTZ s with
  | some t => some t
  | none => parseTsPlain s

/-! ### Warehouse data model

Row types for the four BigQuery tables the queries read
(`crucible.sample`, `crucible.dataset`, `crucible.samplelink`,
`crucible.datasetsamplelink`); nullable columns are Options. -/

structure Sample where
  id : Nat
  sample_name : String
  sample_type : Option String
  description : Option String
  date_created : Option String
  owner_orcid : Option String
  project_id : String
deriving DecidableEq, Repr

structure Dataset where
  id : Nat
  unique_id : String
  dataset_name : String
  measurement : Option String
  file_to_upload : Option String
  source_folder : Option String
  project_id : String
deriving DecidableEq, Repr

structure SampleLink where
  sample_id : Nat
  parent_sample_id : Nat
deriving DecidableEq, Repr

structure DatasetSampleLink where
  dataset_id : Nat
  sample_id : Nat
deriving DecidableEq, Repr

structure Warehouse where
  samples : List Sample
  datasets : List Dataset
  samplelinks : List SampleLink
  datasetsamplelinks : List DatasetSampleLink
deriving Repr

def PROJECT_ID : String := "10k_perovskites"

/-! ### The aggregation queries of get_dashboard_data -/

/-- Query 1: `COUNT(*)` of samples of the project with
    `LOWER(sample_type) = 'thin film'`. -/
def query_thin_films (w : Warehouse) : Nat :=
  (w.samples.filter
    (fun s => s.project_id == PROJECT_ID && lowerEq s.sample_type "thin film")).length

/-- Descending insertion sort by the count column (ORDER BY count DESC). -/
def sortByCountDesc (rows : List (String × Nat)) : List (String × Nat) :=
  rows.insertionSort (fun a b => b.2 ≤ a.2)

/-- Group a list of keys: one row per distinct key with its multiplicity,
    in first-occurrence order (BigQuery GROUP BY before ORDER BY). -/
def groupCounts (keys : List (Option String)) : List (Option String × Nat) :=
  keys.dedup.map (fun k => (k, keys.count k))

/-- Query 2: samples of the project grouped by `sample_type`,
    `COALESCE(sample_type, 'Unknown')` as the label, ORDER BY count DESC. -/
def query_sample_types (w : Warehouse) : List (String × Nat) :=
  sortByCountDesc
    ((groupCounts
        ((w.samples.filter (fun s => s.project_id == PROJECT_ID)).map (·.sample_type))).map
      (fun r => (r.1.getD "Unknown", r.2)))

/-- Queries 3-5: dataset counts by a case-insensitive measurement substring. -/
def countDatasetsLike (w : Warehouse) (pat : String) : Nat :=
  (w.datasets.filter
    (fun d => d.project_id == PROJECT_ID && lowerLike d.measurement pat)).length

def spin_runs_count (w : Warehouse) : Nat := countDatasetsLike w "spin"

def sample_well_count (w : Warehouse) : Nat := countDatasetsLike w "sample well"

def uvvis_datasets_count (w : Warehouse) : Nat := countDatasetsLike w "oospec"

/-- Query 6: datasets of the project grouped by `measurement`,
    `COALESCE(measurement, 'Unknown')`, ORDER BY count DESC, LIMIT 10. -/
def query_dataset_types (w : Warehouse) : List (String × Nat) :=
  (sortByCountDesc
    ((groupCounts
        ((w.datasets.filter (fun d => d.project_id == PROJECT_ID)).map (·.measurement))).map
      (fun r => (r.1.getD "Unknown", r.2)))).take 10

/-- The spectra query's inner filter: datasets of the project whose
    lower-cased measurement contains the spectroscopy substring. -/
def spectraQual (d : Dataset) : Bool :=
  d.project_id == PROJECT_ID && lowerLike d.measurement "pollux_oospec"

/-- `COUNT(DISTINCT dsl.sample_id)` of links of one dataset id.  The LEFT
    JOIN row with a NULL sample_id that an unlinked dataset produces is not
    counted by COUNT(DISTINCT), giving 0, exactly this list's length. -/
def distinctLinkedSamples (w : Warehouse) (did : Nat) : Nat :=
  (((w.datasetsamplelinks.filter (fun l => l.dataset_id == did)).map
      (·.sample_id)).dedup).length

/-- Query 7 (raw): `SUM(sample_count * 8)` over the per-dataset groups;
    NULL (`none`) when no dataset qualifies, as SQL SUM over no rows. -/
def query_spectra (w : Warehouse) : Option Nat :=
  if (((w.datasets.filter spectraQual).map (·.id)).dedup).isEmpty then none
  else some (((((w.datasets.filter spectraQual).map (·.id)).dedup).map
    (fun i => distinctLinkedSamples w i * 8)).sum)

/-- `spectra_count = int(spectra_result) if spectra_result is not None else 0`. -/
def spectra_count (w : Warehouse) : Nat := (query_spectra w).getD 0

/-- The samples-over-time CTE rows that survive every filter: project match,
    `sample_type = 'thin film'` (case sensitive, unlike query 1),
    `date_created IS NOT NULL`, and a date parseable by either format
    (`WHERE date IS NOT NULL` in daily_totals).  Result: one date key per
    surviving row. -/
def sampleTimeDates (w : Warehouse) : List Nat :=
  (w.samples.filter
      (fun s => s.project_id == PROJECT_ID && s.sample_type == some "thin film")).filterMap
    (fun s =>
      match s.date_created with
      | none => none
      | some dc => (parseCreated dc).map Ts.dateKey)

/-- Ascending insertion sort of date keys (ORDER BY date). -/
def sortDates (l : List Nat) : List Nat := l.insertionSort (· ≤ ·)

/-- Prepend a running cumulative sum to (date, daily) rows. -/
def cumulate (acc : Nat) : List (Nat × Nat) → List (Nat × Nat × Nat)
  | [] => []
  | (d, c) :: rest => (d, c, acc + c) :: cumulate (acc + c) rest

/-- Query 8: rows (date, daily_count, cumulative_count) ordered by date. -/
def query_samples_time (w : Warehouse) : List (Nat × Nat × Nat) :=
  cumulate 0 ((sortDates (sampleTimeDates w).dedup).map
    (fun d => (d, (sampleTimeDates w).count d)))

/-- Query 9: total dataset count of the project. -/
def total_datasets (w : Warehouse) : Nat :=
  (w.datasets.filter (fun d => d.project_id == PROJECT_ID)).length

/-- One output row of the precursor join. -/
structure PrecRow where
  thin_film_id : Nat
  thin_film_name : String
  precursor_name : String
  precursor_description : Option String
deriving DecidableEq, Repr

/-- Query 10 before LIMIT: thin-film samples of the project joined through
    `samplelink` to parent samples; the WHERE clause
    `ps.sample_type = 'precursor solution'` discards every left-join row
    whose parent is absent or not a precursor solution. -/
def precRows (w : Warehouse) : List PrecRow :=
  (w.samples.filter
      (fun s => s.project_id == PROJECT_ID && lowerEq s.sample_type "thin film")).flatMap
    (fun tf =>
      (w.samplelinks.filter (fun sl => sl.sample_id == tf.id)).flatMap
        (fun sl =>
          (w.samples.filter
              (fun ps => ps.id == sl.parent_sample_id &&
                         ps.sample_type == some "precursor solution")).map
            (fun ps => ⟨tf.id, tf.sample_name, ps.sample_name, ps.description⟩)))

/-- Query 10: LIMIT 500. -/
def query_thin_films_precursors (w : Warehouse) : List PrecRow :=
  (precRows w).take 500

/-! ### Query 11: thumbnail of the day -/

/-- One selected row of the thumbnail query. -/
structure ThumbRow where
  sample_id : Nat
  sample_name : String
  description : Option String
  date_created : Option String
  owner_orcid : Option String
  sample_type : Option String
  file_to_upload : Option String
  dataset_name : String
  source_folder : Option String
  dataset_id : Nat
  unique_id : String
  sample_date : Nat
  is_today : Bool
deriving DecidableEq, Repr

/-- The (sample, dataset) pairs surviving the thumbnail query's JOINs and
    WHERE clause: sample joined to dataset through `datasetsamplelink`,
    project match, measurement containing 'sample well' case-insensitively,
    non-null `file_to_upload` and non-null `date_created`. -/
def thumbQualPairs (w : Warehouse) : List (Sample × Dataset) :=
  w.samples.flatMap
    (fun s =>
      (w.datasetsamplelinks.filter (fun l => l.sample_id == s.id)).flatMap
        (fun l =>
          (w.datasets.filter
              (fun d => d.id == l.dataset_id &&
                        s.project_id == PROJECT_ID &&
                        lowerLike d.measurement "sample well" &&
                        d.file_to_upload.isSome &&
                        s.date_created.isSome)).map
            (fun d => (s, d))))

def mkThumbRow (today : Nat) (p : Ts × Sample × Dataset) : ThumbRow :=
  { sample_id := p.2.1.id
    sample_name := p.2.1.sample_name
    description := p.2.1.description
    date_created := p.2.1.date_created
    owner_orcid := p.2.1.owner_orcid
    sample_type := p.2.1.sample_type
    file_to_upload := p.2.2.file_to_upload
    dataset_name := p.2.2.dataset_name
    source_folder := p.2.2.source_folder
    dataset_id := p.2.2.id
    unique_id := p.2.2.unique_id
    sample_date := p.1.dateKey
    is_today := p.1.dateKey == today }

/-- Query 11: the thumbnail query uses the plain (not SAFE.) PARSE_TIMESTAMP
    with only the timezone format, so any surviving row whose `date_created`
    that format cannot parse makes the whole query fail; otherwise the rows
    are ordered by parsed timestamp descending and cut to LIMIT 1. -/
def query_thumbnail_of_day (w : Warehouse) (today : Nat) :
    Except String (List ThumbRow) :=
  if (thumbQualPairs w).all (fun p => (parseTsTZ (p.1.date_created.getD "")).isSome) then
    .ok
      (((((thumbQualPairs w).filterMap
            (fun p => (parseTsTZ (p.1.date_created.getD "")).map
              (fun t => (t, p)))).insertionSort
          (fun a b => b.1.key ≤ a.1.key)).take 1).map (mkThumbRow today))
  else .error "Could not parse timestamp string"

/-! ### Thumbnail resolver (get_thumbnail_image_data) -/

/-- A response of `requests.get`: status code, the Content-Type header when
    present, and the body bytes. -/
structure HttpResp where
  status : Nat
  contentType : Option String
  content : List Nat
deriving DecidableEq, Repr

def b64Alphabet : List Char :=
  "ABCDEFGHIJKLMNOPQRSTUVWXYZabcdefghijklmnopqrstuvwxyz0123456789+/".data

def b64Char (n : Nat) : Char := b64Alphabet.getD n 'A'

/-- Standard base64 of a byte list (with padding), as base64.b64encode. -/
def b64encode : List Nat → List Char
  | [] => []
  | [a] => [b64Char (a % 256 / 4), b64Char (a % 4 * 16), '=', '=']
  | [a, b] =>
    [b64Char (a % 256 / 4), b64Char (a % 4 * 16 + b % 256 / 16),
     b64Char (b % 16 * 4), '=']
  | a :: b :: c :: rest =>
    [b64Char (a % 256 / 4), b64Char (a % 4 * 16 + b % 256 / 16),
     b64Char (b % 16 * 4 + c % 256 / 64), b64Char (c % 64)] ++ b64encode rest

/-- The data-URI the resolver builds from a 200 response: base64 body with
    the declared content type, image/jpeg when the header is absent. -/
def dataUri (resp : HttpResp) : String :=
  "data:" ++ resp.contentType.getD "image/jpeg" ++ ";base64," ++
    String.mk (b64encode resp.content)

/-- get_thumbnail_image_data.  `getLinks` models the Crucible client's
    download-link lookup (`none` = raised exception, caught by the outer
    try); the link map is an insertion-ordered association list as a Python
    dict.  `httpGet` models requests.get (`none` = raised exception).
    The list comprehension keeps values whose key ends with '.jpeg' and
    `[0]` takes the first; an empty comprehension raises IndexError, which
    the outer except turns into None.  An empty selected URL is falsy. -/
def get_thumbnail_image_data (getLinks : String → Option (List (String × String)))
    (httpGet : String → Option HttpResp) (dataset_id : String) : Option String :=
  match getLinks dataset_id with
  | none => none
  | some links =>
    match (links.filter (fun kv => trailsWith ".jpeg".data kv.1.data)).head? with
    | none => none
    | some kv =>
      if kv.2 == "" then none
      else
        match httpGet kv.2 with
        | none => none
        | some resp => if resp.status == 200 then some (dataUri resp) else none

/-! ### Response assembly -/

/-- The thumbnail_of_day dict: the selected row's fields plus an
    `image_data` key that is the resolver's result or null. -/
structure ThumbOut where
  row : ThumbRow
  image_data : Option String
deriving DecidableEq, Repr

structure DashboardData where
  thin_films_count : Nat
  spectra_count : Nat
  total_datasets : Nat
  spin_runs_count : Nat
  sample_well_count : Nat
  uvvis_datasets_count : Nat
  sample_types : List (String × Nat)
  dataset_types : List (String × Nat)
  samples_time : List (Nat × Nat × Nat)
  thin_films_precursors : List PrecRow
  thumbnail_of_day : Option ThumbOut
deriving Repr

/-- The return dict of get_dashboard_data, given the thumbnail entry. -/
def assembleData (w : Warehouse) (thumb : Option ThumbOut) : DashboardData :=
  { thin_films_count := query_thin_films w
    spectra_count := spectra_count w
    total_datasets := total_datasets w
    spin_runs_count := spin_runs_count w
    sample_well_count := sample_well_count w
    uvvis_datasets_count := uvvis_datasets_count w
    sample_types := query_sample_types w
    dataset_types := query_dataset_types w
    samples_time := query_samples_time w
    thin_films_precursors := query_thin_films_precursors w
    thumbnail_of_day := thumb }

/-- get_dashboard_data.  Every query except the thumbnail one is total in
    this data-shape model; the thumbnail query's unsafe PARSE_TIMESTAMP is
    the one per-query data-shape failure that escapes, so the whole
    aggregation fails exactly when it does. -/
def get_dashboard_data (w : Warehouse)
    (getLinks : String → Option (List (String × String)))
    (httpGet : String → Option HttpResp) (today : Nat) :
    Except String DashboardData :=
  match query_thumbnail_of_day w today with
  | .error e => .error e
  | .ok rows =>
    .ok (assembleData w
      (match rows.head? with
       | none => none
       | some r =>
         some ⟨r, get_thumbnail_image_data getLinks httpGet r.unique_id⟩))

/-- JSON values, for the serialized bodies of the endpoint. -/
inductive JVal where
  | num (n : Nat)
  | str (s : String)
  | boolean (b : Bool)
  | nullv
  | arr (elems : List JVal)
  | obj (fields : List (String × JVal))
deriving Repr

def JVal.ofOptStr : Option String → JVal
  | none => .nullv
  | some s => .str s

def jsonOfThumb (t : ThumbOut) : JVal :=
  .obj
    [("sample_id", .num t.row.sample_id),
     ("sample_name", .str t.row.sample_name),
     ("description", .ofOptStr t.row.description),
     ("date_created", .ofOptStr t.row.date_created),
     ("owner_orcid", .ofOptStr t.row.owner_orcid),
     ("sample_type", .ofOptStr t.row.sample_type),
     ("file_to_upload", .ofOptStr t.row.file_to_upload),
     ("dataset_name", .str t.row.dataset_name),
     ("source_folder", .ofOptStr t.row.source_folder),
     ("dataset_id", .num t.row.dataset_id),
     ("unique_id", .str t.row.unique_id),
     ("sample_date", .num t.row.sample_date),
     ("is_today", .boolean t.row.is_today),
     ("image_data", .ofOptStr t.image_data)]

/-- The successful /api/data body: the aggregation dict in insertion order
    plus the timestamp key added by the endpoint. -/
def jsonOfData (d : DashboardData) (ts : String) : List (String × JVal) :=
  [("thin_films_count", .num d.thin_films_count),
   ("spectra_count", .num d.spectra_count),
   ("total_datasets", .num d.total_datasets),
   ("spin_runs_count", .num d.spin_runs_count),
   ("sample_well_count", .num d.sample_well_count),
   ("uvvis_datasets_count", .num d.uvvis_datasets_count),
   ("sample_types", .arr (d.sample_types.map
      (fun r => .obj [("sample_type", .str r.1), ("count", .num r.2)]))),
   ("dataset_types", .arr (d.dataset_types.map
      (fun r => .obj [("measurement", .str r.1), ("count", .num r.2)]))),
   ("samples_time", .arr (d.samples_time.map
      (fun r => .obj [("date", .num r.1), ("daily_count", .num r.2.1),
                      ("cumulative_count", .num r.2.2)]))),
   ("thin_films_precursors", .arr (d.thin_films_precursors.map
      (fun r => .obj
        [("thin_film_id", .num r.thin_film_id),
         ("thin_film_name", .str r.thin_film_name),
         ("precursor_name", .str r.precursor_name),
         ("precursor_description", .ofOptStr r.precursor_description)]))),
   ("thumbnail_of_day",
      match d.thumbnail_of_day with
      | none => .nullv
      | some t => jsonOfThumb t),
   ("timestamp", .str ts)]

/-- The /api/data endpoint: on success HTTP 200 with the full JSON object,
    on any aggregation error HTTP 500 with only an error message. -/
def api_data (w : Warehouse)
    (getLinks : String → Option (List (String × String)))
    (httpGet : String → Option HttpResp) (today : Nat) (now : String) :
    Nat × List (String × JVal) :=
  match get_dashboard_data w getLinks httpGet today with
  | .ok d => (200, jsonOfData d now)
  | .error e => (500, [("error", .str e)])

/-! ### The dashboard page endpoint -/

structure Session where
  orcid : Option String
  name : Option String
deriving Repr

/-- A Flask view result: a rendered template or a redirect. -/
inductive PageResponse where
  | render (template : String) (user : String)
  | redirectTo (route : String)
deriving DecidableEq, Repr

/-- The `/` route: the authentication check is commented out in this
    revision, so it always renders the shell with the session name
    defaulted to 'Guest'. -/
def index (sess : Session) : PageResponse :=
  .render "dashboard.html" (sess.name.getD "Guest")

/-! ### Shared lemmas about the query building blocks -/

theorem sum_map_snd_sortByCountDesc (rows : List (String × Nat)) :
    ((sortByCountDesc rows).map (·.2)).sum = (rows.map (·.2)).sum :=
  ((List.perm_insertionSort _ rows).map _).sum_eq

theorem length_sortByCountDesc (rows : List (String × Nat)) :
    (sortByCountDesc rows).length = rows.length :=
  (List.perm_insertionSort _ rows).length_eq

theorem count_beq_irrel (l : List (Option String)) (x : Option String) :
    l.count x = @List.count _ instBEqOfDecidableEq x l := by
  induction l with
  | nil => rfl
  | cons a as ih => simp [List.count_cons, ih, beq_iff_eq]

theorem sum_map_snd_groupCounts (l : List (Option String)) :
    ((groupCounts l).map (·.2)).sum = l.length := by
  unfold groupCounts
  rw [List.map_map]
  simpa [Function.comp_def, count_beq_irrel] using
    List.sum_map_count_dedup_eq_length l

theorem sum_map_snd_relabel (rows : List (Option String × Nat)) :
    ((rows.map (fun r => (r.1.getD "Unknown", r.2))).map (·.2)).sum =
      (rows.map (·.2)).sum := by
  rw [List.map_map]; rfl

/-- The cumulative column produced by `cumulate` grows monotonically. -/
theorem cumulate_chain (acc : Nat) (l : List (Nat × Nat)) :
    List.Chain' (· ≤ ·) ((cumulate acc l).map (·.2.2)) := by
  induction l generalizing acc with
  | nil => simp [cumulate]
  | cons p rest ih =>
    obtain ⟨d, c⟩ := p
    cases rest with
    | nil => simp [cumulate]
    | cons q rest2 =>
      obtain ⟨d2, c2⟩ := q
      have h2 := ih (acc + c)
      simp only [cumulate, List.map_cons] at h2 ⊢
      exact List.Chain'.cons (Nat.le_add_right _ _) h2

/-- The last cumulative value is the initial accumulator plus all counts. -/
theorem cumulate_getLast (acc : Nat) (l : List (Nat × Nat)) (r : Nat × Nat × Nat)
    (h : (cumulate acc l).getLast? = some r) :
    r.2.2 = acc + (l.map (·.2)).sum := by
  induction l generalizing acc with
  | nil => simp [cumulate] at h
  | cons p rest ih =>
    obtain ⟨d, c⟩ := p
    cases rest with
    | nil =>
      simp only [cumulate, List.getLast?_singleton, Option.some.injEq] at h
      simp [← h]
    | cons q rest2 =>
      obtain ⟨d2, c2⟩ := q
      simp only [cumulate, List.getLast?_cons_cons] at h
      have := ih (acc + c) (by simpa [cumulate] using h)
      simp only [List.map_cons, List.sum_cons] at this ⊢
      omega

/-- Truncating a list of positive numbers preserves its sum exactly when
    nothing is truncated. -/
theorem sum_take_eq_sum_iff (L : List Nat) (n : Nat) (hpos : ∀ y ∈ L, 0 < y) :
    (L.take n).sum = L.sum ↔ L.length ≤ n := by
  constructor
  · intro h
    by_contra hgt
    push_neg at hgt
    have hdrop : L.drop n ≠ [] := by
      intro hnil
      exact absurd (List.drop_eq_nil_iff.mp hnil) (Nat.not_le.mpr hgt)
    obtain ⟨y, hy⟩ := List.exists_mem_of_ne_nil _ hdrop
    have hy0 : 0 < y := hpos y (List.mem_of_mem_drop hy)
    have hle : y ≤ (L.drop n).sum :=
      List.single_le_sum (fun x _ => Nat.zero_le x) y hy
    have hsplit := List.sum_take_add_sum_drop L n
    omega
  · intro h
    rw [List.take_of_length_le h]

/-- Every count produced by `groupCounts` is positive: each deduplicated
    key occurs in the key list. -/
theorem groupCounts_pos (keys : List (Option String)) :
    ∀ x ∈ groupCounts keys, 0 < x.2 := by
  intro x hx
  unfold groupCounts at hx
  obtain ⟨k, hk, rfl⟩ := List.mem_map.mp hx
  exact List.count_pos_iff.mpr (List.mem_dedup.mp hk)

/-- Summing each distinct date's multiplicity, in any sorted order,
    recovers the number of rows. -/
theorem sum_counts_sortDates (l : List Nat) :
    ((sortDates l.dedup).map (fun d => l.count d)).sum = l.length := by
  have hp : (sortDates l.dedup).Perm l.dedup := List.perm_insertionSort _ _
  calc ((sortDates l.dedup).map (fun d => l.count d)).sum
      = (l.dedup.map (fun d => l.count d)).sum := (hp.map _).sum_eq
    _ = l.length := List.sum_map_count_dedup_eq_length l

/-! ### Concrete warehouse fixtures -/

def mkSample (i : Nat) (nm : String) (ty : Option String) (dc : Option String) :
    Sample :=
  ⟨i, nm, ty, none, dc, none, PROJECT_ID⟩

def mkDataset (i : Nat) (meas : Option String) : Dataset :=
  ⟨i, "uid" ++ toString i, "ds", meas, some "f.jpg", none, PROJECT_ID⟩

/-- Two thin-film samples, one with a parseable creation timestamp and one
    with a NULL one. -/
def whNullDateThin : Warehouse :=
  ⟨[mkSample 1 "a" (some "thin film") (some "2024-01-02T10:30:00+00:00"),
    mkSample 2 "b" (some "thin film") none], [], [], []⟩

/-- Eleven project datasets with pairwise distinct measurement labels. -/
def whElevenMeas : Warehouse :=
  ⟨[], (List.range 11).map (fun i => mkDataset i (some (toString i))), [], []⟩

/-- The spec's spectra scenario: two qualifying datasets linked to 2 and 3
    distinct samples. -/
def whSpectraPair : Warehouse :=
  ⟨[mkSample 101 "s1" none none, mkSample 102 "s2" none none,
    mkSample 103 "s3" none none, mkSample 104 "s4" none none,
    mkSample 105 "s5" none none],
   [mkDataset 1 (some "Pollux_OOSpec A"), mkDataset 2 (some "pollux_oospec B")],
   [],
   [⟨1, 101⟩, ⟨1, 102⟩, ⟨2, 103⟩, ⟨2, 104⟩, ⟨2, 105⟩]⟩

/-! ### Claim C2: the samples_time cumulative column -/

/-- C2, counterexample: the final cumulative value is 1 while
    thin_films_count is 2, because the time-series query drops the
    thin film whose date_created is NULL while the count query keeps it. -/
theorem samples_time_final_ne_thin_films_count :
    ((query_samples_time whNullDateThin).map (·.2.2)).getLast? = some 1 ∧
    query_thin_films whNullDateThin = 2 ∧ (1 : Nat) ≠ 2 := by
  refine ⟨by decide, by decide, by decide⟩

/-- C2 (amended): in the samples_time result the cumulative_count column is
    non-decreasing in date order, and its final value equals the number of
    project samples whose sample_type is exactly 'thin film' (case
    sensitive) with a non-null creation timestamp parseable by one of the
    two formats — the population `sampleTimeDates`, which can be smaller
    than thin_films_count (counted case-insensitively over all thin films,
    including those with NULL or unparseable timestamps). -/
theorem samples_time_monotone_final (w : Warehouse) :
    List.Chain' (· ≤ ·) ((query_samples_time w).map (·.2.2)) ∧
    (∀ r, (query_samples_time w).getLast? = some r →
      r.2.2 = (sampleTimeDates w).length) := by
  refine ⟨cumulate_chain 0 _, fun r h => ?_⟩
  unfold query_samples_time at h
  have hl := cumulate_getLast 0 _ r h
  rw [hl, List.map_map, Nat.zero_add]
  simpa [Function.comp_def] using sum_counts_sortDates (sampleTimeDates w)

/-- Witness for C2's theorem at a concrete warehouse. -/
theorem samples_time_monotone_final_witness :
    (query_samples_time whNullDateThin).getLast? = some (842018, 1, 1) ∧
    ((842018, 1, 1) : Nat × Nat × Nat).2.2 = (sampleTimeDates whNullDateThin).length :=
  ⟨by decide, (samples_time_monotone_final whNullDateThin).2 _ (by decide)⟩

/-! ### Claim C3: grouped breakdowns sum to totals -/

/-- C3, counterexample: with eleven distinct measurement labels the
    dataset_types counts sum to 10 (the LIMIT 10 cut) while total_datasets
    is 11. -/
theorem dataset_types_sum_lt_total :
    ((query_dataset_types whElevenMeas).map (·.2)).sum = 10 ∧
    total_datasets whElevenMeas = 11 ∧ (10 : Nat) ≠ 11 := by
  refine ⟨by decide, by decide, by decide⟩

/-- C3 (amended): the sample_types counts sum to the total number of
    project samples; the dataset_types counts sum to at most total_datasets,
    with equality exactly when the project has at most ten distinct
    measurement labels (NULL counted as one label) — the query keeps only
    the top ten groups, and every dropped group carries a positive count. -/
theorem grouped_breakdown_sums (w : Warehouse) :
    ((query_sample_types w).map (·.2)).sum =
      (w.samples.filter (fun s => s.project_id == PROJECT_ID)).length ∧
    ((query_dataset_types w).map (·.2)).sum ≤ total_datasets w ∧
    (((query_dataset_types w).map (·.2)).sum = total_datasets w ↔
      (((w.datasets.filter (fun d => d.project_id == PROJECT_ID)).map
        (·.measurement)).dedup).length ≤ 10) := by
  have hfullD :
      ((sortByCountDesc
        ((groupCounts
            ((w.datasets.filter (fun d => d.project_id == PROJECT_ID)).map
              (·.measurement))).map (fun r => (r.1.getD "Unknown", r.2)))).map
        (·.2)).sum = total_datasets w := by
    rw [sum_map_snd_sortByCountDesc, sum_map_snd_relabel, sum_map_snd_groupCounts,
        List.length_map]
    rfl
  have hlenD :
      ((sortByCountDesc
        ((groupCounts
            ((w.datasets.filter (fun d => d.project_id == PROJECT_ID)).map
              (·.measurement))).map (fun r => (r.1.getD "Unknown", r.2)))).map
        (·.2)).length =
      (((w.datasets.filter (fun d => d.project_id == PROJECT_ID)).map
        (·.measurement)).dedup).length := by
    rw [List.length_map, length_sortByCountDesc, List.length_map]
    unfold groupCounts
    rw [List.length_map]
  have hpos : ∀ y ∈
      ((sortByCountDesc
        ((groupCounts
            ((w.datasets.filter (fun d => d.project_id == PROJECT_ID)).map
              (·.measurement))).map (fun r => (r.1.getD "Unknown", r.2)))).map
        (·.2)), 0 < y := by
    intro y hy
    obtain ⟨x, hx, rfl⟩ := List.mem_map.mp hy
    have hx' := (List.perm_insertionSort
      (fun a b : String × Nat => b.2 ≤ a.2) _).mem_iff.mp hx
    obtain ⟨p, hp, rfl⟩ := List.mem_map.mp hx'
    exact groupCounts_pos _ p hp
  refine ⟨?_, ?_, ?_⟩
  · unfold query_sample_types
    rw [sum_map_snd_sortByCountDesc, sum_map_snd_relabel, sum_map_snd_groupCounts,
        List.length_map]
  · unfold query_dataset_types
    rw [List.map_take]
    exact Nat.le.intro ((List.sum_take_add_sum_drop _ 10).trans hfullD)
  · unfold query_dataset_types
    rw [List.map_take, ← hfullD, ← hlenD]
    exact sum_take_eq_sum_iff _ 10 hpos

/-- Witness for C3's theorem: the empty warehouse has no measurement
    groups, so the dataset_types counts sum exactly to total_datasets. -/
theorem grouped_breakdown_sums_witness :
    ((((Warehouse.mk [] [] [] []).datasets.filter
        (fun d => d.project_id == PROJECT_ID)).map (·.measurement)).dedup).length ≤ 10 ∧
    ((query_dataset_types ⟨[], [], [], []⟩).map (·.2)).sum =
      total_datasets ⟨[], [], [], []⟩ :=
  ⟨by decide, ((grouped_breakdown_sums ⟨[], [], [], []⟩).2.2).mpr (by decide)⟩

/-! ### Claim C4: the derived spectra count -/

/-- C4: when dataset ids are unique (the table's primary key), spectra_count
    is the sum, over the project's datasets whose measurement contains
    'pollux_oospec' case-insensitively, of 8 times the number of distinct
    linked samples. -/
theorem spectra_count_formula (w : Warehouse)
    (h : (w.datasets.map (·.id)).Nodup) :
    spectra_count w =
      ((w.datasets.filter spectraQual).map
        (fun d => distinctLinkedSamples w d.id * 8)).sum := by
  have hsub : ((w.datasets.filter spectraQual).map (·.id)).Nodup :=
    ((List.filter_sublist _).map _).nodup h
  have hded : ((w.datasets.filter spectraQual).map (·.id)).dedup
      = (w.datasets.filter spectraQual).map (·.id) := List.dedup_eq_self.mpr hsub
  unfold spectra_count query_spectra
  rw [hded]
  cases hq : w.datasets.filter spectraQual with
  | nil => simp
  | cons a as => simp [List.map_map, Function.comp_def]

/-- Witness for C4: the spec's scenario evaluates to (2+3)*8 = 40. -/
theorem spectra_count_formula_witness :
    (whSpectraPair.datasets.map (·.id)).Nodup ∧ spectra_count whSpectraPair = 40 :=
  ⟨by decide, (spectra_count_formula whSpectraPair (by decide)).trans (by decide)⟩

/-! ### Claim C1: per-query failures and the whole aggregation -/

/-- A qualifying thumbnail row whose creation timestamp no format parses. -/
def whMalformedThumb : Warehouse :=
  ⟨[mkSample 1 "s" (some "thin film") (some "garbage")],
   [⟨7, "u7", "ds", some "Sample Well img", some "f.jpeg", none, PROJECT_ID⟩],
   [], [⟨7, 1⟩]⟩

/-- A qualifying thumbnail row with a well-formed creation timestamp. -/
def whThumbOk : Warehouse :=
  ⟨[mkSample 1 "s" (some "thin film") (some "2024-01-02T10:30:00+00:00")],
   [⟨7, "u7", "ds", some "Sample Well img", some "f.jpeg", none, PROJECT_ID⟩],
   [], [⟨7, 1⟩]⟩

/-- C1, counterexample: one malformed creation timestamp on a row the
    thumbnail query selects makes the whole aggregation fail — the
    thumbnail query parses with the plain (not SAFE.) PARSE_TIMESTAMP. -/
theorem aggregation_crashes_on_malformed_timestamp :
    (get_dashboard_data whMalformedThumb (fun _ => none) (fun _ => none) 0).isOk
      = false := by decide

/-- C1 (amended): the per-query defaults hold — a NULL spectra sum becomes
    zero, empty grouped results become empty collections, a thumbnail query
    with no rows yields a null thumbnail — and the aggregation completes
    whenever every row surviving the thumbnail query's filters has a
    creation timestamp the timezone format parses; a malformed timestamp
    there (and only there: samples_time uses SAFE parsing) fails the whole
    aggregation. -/
theorem aggregation_survives_data_shapes (w : Warehouse)
    (gl : String → Option (List (String × String)))
    (hg : String → Option HttpResp) (today : Nat)
    (hparse : (thumbQualPairs w).all
      (fun p => (parseTsTZ (p.1.date_created.getD "")).isSome) = true) :
    ∃ d, get_dashboard_data w gl hg today = Except.ok d ∧
      (query_spectra w = none → d.spectra_count = 0) ∧
      (w.samples.filter (fun s => s.project_id == PROJECT_ID) = [] →
        d.sample_types = []) ∧
      (w.datasets.filter (fun x => x.project_id == PROJECT_ID) = [] →
        d.dataset_types = []) ∧
      (thumbQualPairs w = [] → d.thumbnail_of_day = none) := by
  unfold get_dashboard_data query_thumbnail_of_day
  simp only [hparse, if_true]
  refine ⟨_, rfl, ?_, ?_, ?_, ?_⟩
  · intro hs
    show spectra_count w = 0
    simp [spectra_count, hs]
  · intro he
    show query_sample_types w = []
    simp [query_sample_types, groupCounts, sortByCountDesc, he]
  · intro he
    show query_dataset_types w = []
    simp [query_dataset_types, groupCounts, sortByCountDesc, he]
  · intro ht
    simp [assembleData, ht]

/-- Witness for C1's theorem: a warehouse whose one thumbnail row parses. -/
theorem aggregation_survives_data_shapes_witness :
    (thumbQualPairs whThumbOk).all
      (fun p => (parseTsTZ (p.1.date_created.getD "")).isSome) = true ∧
    ∃ d, get_dashboard_data whThumbOk (fun _ => none) (fun _ => none) 0
        = Except.ok d ∧
      (query_spectra whThumbOk = none → d.spectra_count = 0) ∧
      (whThumbOk.samples.filter (fun s => s.project_id == PROJECT_ID) = [] →
        d.sample_types = []) ∧
      (whThumbOk.datasets.filter (fun x => x.project_id == PROJECT_ID) = [] →
        d.dataset_types = []) ∧
      (thumbQualPairs whThumbOk = [] → d.thumbnail_of_day = none) :=
  ⟨by decide,
   aggregation_survives_data_shapes whThumbOk (fun _ => none) (fun _ => none) 0
     (by decide)⟩

/-! ### Claim C5: the /api/data response contract -/

/-- C5: /api/data returns 200 with the JSON object holding exactly the
    twelve specified fields in order, or 500 with only an error field when
    the aggregation fails; never partial results. -/
theorem api_data_contract (w : Warehouse)
    (gl : String → Option (List (String × String)))
    (hg : String → Option HttpResp) (today : Nat) (now : String) :
    (∃ d, get_dashboard_data w gl hg today = Except.ok d ∧
       api_data w gl hg today now = (200, jsonOfData d now) ∧
       (jsonOfData d now).map (·.1) =
         ["thin_films_count", "spectra_count", "total_datasets",
          "spin_runs_count", "sample_well_count", "uvvis_datasets_count",
          "sample_types", "dataset_types", "samples_time",
          "thin_films_precursors", "thumbnail_of_day", "timestamp"]) ∨
    (∃ e, get_dashboard_data w gl hg today = Except.error e ∧
       api_data w gl hg today now = (500, [("error", JVal.str e)])) := by
  cases hd : get_dashboard_data w gl hg today with
  | ok d => exact Or.inl ⟨d, rfl, by simp [api_data, hd], rfl⟩
  | error e => exact Or.inr ⟨e, rfl, by simp [api_data, hd]⟩

/-! ### Claim C7: empty thumbnail query -/

/-- C7: when no row survives the thumbnail query's filters, the response's
    thumbnail_of_day is null and /api/data still answers 200 with every
    field of the contract present. -/
theorem thumbnail_empty_gives_null_and_200 (w : Warehouse)
    (gl : String → Option (List (String × String)))
    (hg : String → Option HttpResp) (today : Nat) (now : String)
    (h : thumbQualPairs w = []) :
    ∃ d, get_dashboard_data w gl hg today = Except.ok d ∧
      d.thumbnail_of_day = none ∧
      api_data w gl hg today now = (200, jsonOfData d now) ∧
      (jsonOfData d now).map (·.1) =
        ["thin_films_count", "spectra_count", "total_datasets",
         "spin_runs_count", "sample_well_count", "uvvis_datasets_count",
         "sample_types", "dataset_types", "samples_time",
         "thin_films_precursors", "thumbnail_of_day", "timestamp"] := by
  have hd : get_dashboard_data w gl hg today = Except.ok (assembleData w none) := by
    unfold get_dashboard_data query_thumbnail_of_day
    simp [h]
  exact ⟨assembleData w none, hd, rfl, by simp [api_data, hd], rfl⟩

/-- Witness for C7's theorem: a warehouse with no datasets has no
    qualifying thumbnail rows. -/
theorem thumbnail_empty_gives_null_and_200_witness :
    thumbQualPairs whNullDateThin = [] ∧
    ∃ d, get_dashboard_data whNullDateThin (fun _ => none) (fun _ => none) 0
        = Except.ok d ∧
      d.thumbnail_of_day = none ∧
      api_data whNullDateThin (fun _ => none) (fun _ => none) 0 "t"
        = (200, jsonOfData d "t") ∧
      (jsonOfData d "t").map (·.1) =
        ["thin_films_count", "spectra_count", "total_datasets",
         "spin_runs_count", "sample_well_count", "uvvis_datasets_count",
         "sample_types", "dataset_types", "samples_time",
         "thin_films_precursors", "thumbnail_of_day", "timestamp"] :=
  ⟨by decide,
   thumbnail_empty_gives_null_and_200 whNullDateThin (fun _ => none)
     (fun _ => none) 0 "t" (by decide)⟩

/-! ### Claim C6: thumbnail resolver degradation -/

/-- C6: every resolver failure — link lookup exception, no '.jpeg' link,
    empty URL, fetch exception, non-200 status — yields a null image
    reference; a 200 fetch yields the base64 data URI with the declared
    content type (image/jpeg when the header is absent); and inside the
    aggregation a selected thumbnail row stays present with whatever the
    resolver returned as its image_data. -/
theorem thumbnail_resolver_degrades
    (gl : String → Option (List (String × String)))
    (hg : String → Option HttpResp) (did : String) :
    (gl did = none → get_thumbnail_image_data gl hg did = none) ∧
    (∀ links, gl did = some links →
      (((links.filter (fun kv => trailsWith ".jpeg".data kv.1.data)).head? = none →
         get_thumbnail_image_data gl hg did = none) ∧
       (∀ k url,
         (links.filter (fun kv => trailsWith ".jpeg".data kv.1.data)).head? =
           some (k, url) → ¬ url = "" →
         ((hg url = none → get_thumbnail_image_data gl hg did = none) ∧
          (∀ resp, hg url = some resp →
            ((¬ resp.status = 200 → get_thumbnail_image_data gl hg did = none) ∧
             (resp.status = 200 →
               get_thumbnail_image_data gl hg did = some (dataUri resp)))))))) ∧
    (∀ resp : HttpResp, dataUri resp =
      "data:" ++ resp.contentType.getD "image/jpeg" ++ ";base64," ++
        String.mk (b64encode resp.content)) ∧
    (∀ w today rows r, query_thumbnail_of_day w today = Except.ok rows →
      rows.head? = some r →
      ∃ d, get_dashboard_data w gl hg today = Except.ok d ∧
        d.thumbnail_of_day =
          some ⟨r, get_thumbnail_image_data gl hg r.unique_id⟩) := by
  refine ⟨?_, ?_, fun _ => rfl, ?_⟩
  · intro h
    simp [get_thumbnail_image_data, h]
  · intro links hl
    refine ⟨?_, ?_⟩
    · intro hh
      simp [get_thumbnail_image_data, hl, hh]
    · intro k url hh hne
      refine ⟨?_, ?_⟩
      · intro hfail
        simp [get_thumbnail_image_data, hl, hh, hne, hfail]
      · intro resp hresp
        refine ⟨?_, ?_⟩
        · intro hst
          simp [get_thumbnail_image_data, hl, hh, hne, hresp, hst]
        · intro hst
          simp [get_thumbnail_image_data, hl, hh, hne, hresp, hst]
  · intro w today rows r hq hr
    unfold get_dashboard_data
    rw [hq]
    exact ⟨_, rfl, by simp [assembleData, hr]⟩

def glThreeLinks : String → Option (List (String × String)) :=
  fun _ => some [("a.jpg", "u1"), ("b.jpeg", "u2"), ("c.jpeg", "u3")]

def hgPng : String → Option HttpResp :=
  fun u => if u == "u2" then some ⟨200, some "image/png", [77]⟩ else none

/-- Witness for C6's theorem: a failing lookup degrades to none, and a 200
    fetch of the first '.jpeg' link produces the typed data URI. -/
theorem thumbnail_resolver_degrades_witness :
    get_thumbnail_image_data (fun _ => none) hgPng "u7" = none ∧
    get_thumbnail_image_data glThreeLinks hgPng "u7" =
      some "data:image/png;base64,TQ==" := by
  refine ⟨(thumbnail_resolver_degrades (fun _ => none) hgPng "u7").1 rfl, ?_⟩
  have h := ((thumbnail_resolver_degrades glThreeLinks hgPng "u7").2.1
    [("a.jpg", "u1"), ("b.jpeg", "u2"), ("c.jpeg", "u3")] rfl).2 "b.jpeg" "u2"
    (by decide) (by decide)
  have h2 := (h.2 ⟨200, some "image/png", [77]⟩ (by decide)).2 rfl
  exact h2.trans (by decide)

/-! ### Claim C8: the thin-film / precursor join -/

/-- Three thin films, two precursor solutions, a single link. -/
def whPrecursorTrio : Warehouse :=
  ⟨[mkSample 1 "tf1" (some "thin film") none,
    mkSample 2 "tf2" (some "thin film") none,
    mkSample 3 "tf3" (some "thin film") none,
    mkSample 10 "p10" (some "precursor solution") none,
    mkSample 11 "p11" (some "precursor solution") none],
   [], [⟨1, 10⟩], []⟩

/-- C8: the precursor join returns at most 500 rows, every row joins a
    project thin-film sample to a parent 'precursor solution' sample
    through the link table, and the spec's 3-thin-films / 2-precursors /
    one-link scenario yields exactly the one matching row. -/
theorem thin_films_precursors_rows :
    (∀ w : Warehouse, (query_thin_films_precursors w).length ≤ 500 ∧
      ∀ r ∈ query_thin_films_precursors w,
        ∃ tf ∈ w.samples, ∃ sl ∈ w.samplelinks, ∃ ps ∈ w.samples,
          tf.project_id = PROJECT_ID ∧ lowerEq tf.sample_type "thin film" = true ∧
          sl.sample_id = tf.id ∧ ps.id = sl.parent_sample_id ∧
          ps.sample_type = some "precursor solution" ∧
          r = ⟨tf.id, tf.sample_name, ps.sample_name, ps.description⟩) ∧
    query_thin_films_precursors whPrecursorTrio = [⟨1, "tf1", "p10", none⟩] := by
  refine ⟨fun w => ⟨?_, ?_⟩, by decide⟩
  · unfold query_thin_films_precursors
    rw [List.length_take]
    exact inf_le_left
  · intro r hr
    have hr' : r ∈ precRows w := List.mem_of_mem_take hr
    unfold precRows at hr'
    simp only [List.mem_flatMap, List.mem_filter, List.mem_map,
      Bool.and_eq_true, beq_iff_eq] at hr'
    obtain ⟨tf, ⟨htf, htfp, htft⟩, sl, ⟨hsl, hslc⟩, ps, ⟨⟨hps, hpsi, hpst⟩, hrow⟩⟩ := hr'
    exact ⟨tf, htf, sl, hsl, ps, hps, htfp, htft, hslc, hpsi, hpst, hrow.symm⟩

/-- Witness for C8's theorem: the scenario's single row is sound. -/
theorem thin_films_precursors_rows_witness :
    (⟨1, "tf1", "p10", none⟩ : PrecRow) ∈
      query_thin_films_precursors whPrecursorTrio ∧
    ∃ tf ∈ whPrecursorTrio.samples, ∃ sl ∈ whPrecursorTrio.samplelinks,
      ∃ ps ∈ whPrecursorTrio.samples,
        tf.project_id = PROJECT_ID ∧ lowerEq tf.sample_type "thin film" = true ∧
        sl.sample_id = tf.id ∧ ps.id = sl.parent_sample_id ∧
        ps.sample_type = some "precursor solution" ∧
        (⟨1, "tf1", "p10", none⟩ : PrecRow)
          = ⟨tf.id, tf.sample_name, ps.sample_name, ps.description⟩ :=
  ⟨by decide,
   (thin_films_precursors_rows.1 whPrecursorTrio).2 _ (by decide)⟩

/-! ### Claim C9: the dashboard page route -/

/-- C9: `GET /` always renders the dashboard shell — the auth gate is
    commented out — and shows 'Guest' when the session has no name. -/
theorem index_renders_guest (sess : Session) :
    (∃ t u, index sess = PageResponse.render t u) ∧
    (∀ route, index sess ≠ PageResponse.redirectTo route) ∧
    (sess.name = none →
      index sess = PageResponse.render "dashboard.html" "Guest") := by
  refine ⟨⟨_, _, rfl⟩, fun route h => by simp [index] at h, fun h => by simp [index, h]⟩

/-- Witness for C9's theorem at the empty session. -/
theorem index_renders_guest_witness :
    index ⟨none, none⟩ = PageResponse.render "dashboard.html" "Guest" :=
  (index_renders_guest ⟨none, none⟩).2.2 rfl

/-! ### Claim C10: the '.jpeg' key selection -/

/-- C10: the resolver keeps only keys ending in the exact lowercase
    '.jpeg' — a link map with no such key yields none — and when several
    match, the value fetched is the first matching entry in map order. -/
theorem jpeg_link_selection
    (gl : String → Option (List (String × String)))
    (hg : String → Option HttpResp) (did : String)
    (links : List (String × String)) :
    (gl did = some links →
      (∀ kv ∈ links, trailsWith ".jpeg".data kv.1.data = false) →
      get_thumbnail_image_data gl hg did = none) ∧
    (∀ k url, gl did = some links →
      (links.filter (fun kv => trailsWith ".jpeg".data kv.1.data)).head?
        = some (k, url) →
      ¬ url = "" →
      get_thumbnail_image_data gl hg did =
        (match hg url with
         | none => none
         | some resp =>
            if resp.status == 200 then some (dataUri resp) else none)) := by
  constructor
  · intro hl hall
    have hfil : links.filter (fun kv => trailsWith ".jpeg".data kv.1.data) = [] :=
      List.filter_eq_nil_iff.mpr (fun kv hkv => by simp [hall kv hkv])
    simp [get_thumbnail_image_data, hl, hfil]
  · intro k url hl hh hne
    simp [get_thumbnail_image_data, hl, hh, hne]

def linksNoLower : List (String × String) := [("a.jpg", "u1"), ("b.JPEG", "u2")]

def linksTwoJpeg : List (String × String) := [("x.jpeg", "v1"), ("y.jpeg", "v2")]

def hgFirstOnly : String → Option HttpResp :=
  fun u => if u == "v1" then some ⟨200, none, [77]⟩ else none

/-- Witness for C10's theorem: '.jpg' and '.JPEG' keys select nothing, and
    with two '.jpeg' keys the first entry's URL is the one fetched (the
    stub HTTP layer only answers for the first URL, and the fetch
    succeeds). -/
theorem jpeg_link_selection_witness :
    get_thumbnail_image_data (fun _ => some linksNoLower) hgFirstOnly "d" = none ∧
    get_thumbnail_image_data (fun _ => some linksTwoJpeg) hgFirstOnly "d" =
      some "data:image/jpeg;base64,TQ==" := by
  refine ⟨(jpeg_link_selection (fun _ => some linksNoLower) hgFirstOnly "d"
    linksNoLower).1 rfl (by decide), ?_⟩
  have h := (jpeg_link_selection (fun _ => some linksTwoJpeg) hgFirstOnly "d"
    linksTwoJpeg).2 "x.jpeg" "v1" rfl (by decide) (by decide)
  exact h.trans (by decide)

end Dashboard
